import Mathlib

/-!
Shallow embedding of the MovieHub client (src/script.js): the item store and
title search, the mutually exclusive view states, the load/error flow, the
debounced search channel, and the modal overlay lifecycle.  Strings are
modelled as `List Char`; JS `toLowerCase`, `trim` and `includes` are embedded
as functions on `List Char`.
-/

/-- An item record as loaded from `movies.json` (fields used by script.js:
`title`, `year`, `genre`, `rating`, `description`, `poster`).  The numeric
`rating` is modelled as a rational. -/
structure Movie where
  title : List Char
  year : Int
  genre : List Char
  rating : Rat
  description : List Char
  poster : List Char
deriving DecidableEq

/-- JS `String.prototype.toLowerCase`, character by character. -/
def jsToLower (s : List Char) : List Char := s.map Char.toLower

/-- Whitespace test used by JS `trim`. -/
def isJsSpace (c : Char) : Bool := c.isWhitespace

/-- JS `String.prototype.trim`: strip whitespace from both ends. -/
def jsTrim (s : List Char) : List Char :=
  ((s.dropWhile isJsSpace).reverse.dropWhile isJsSpace).reverse

/-- The predicate of `MovieApp.searchMovies`'s filter callback:
`movie.title.toLowerCase().includes(searchTerm)`. -/
def titleMatches (searchTerm : List Char) (movie : Movie) : Bool :=
  decide (searchTerm <:+: jsToLower movie.title)

/-- `MovieApp.searchMovies` (script.js:129-141), the pure filtering part:
normalize the query (`query.toLowerCase().trim()`), return the whole
collection when it is empty, otherwise filter by title substring. -/
def searchMoviesList (query : List Char) (movies : List Movie) : List Movie :=
  let searchTerm := jsTrim (jsToLower query)
  if searchTerm = [] then movies
  else movies.filter (titleMatches searchTerm)

/-- Visibility of the four mutually exclusive view regions (`loadingState`,
`errorState`, `noResultsState`, `moviesContainer`): `true` means its
`style.display` is a visible value. -/
structure VisState where
  loading : Bool
  error : Bool
  noResults : Bool
  container : Bool
deriving DecidableEq

/-- `MovieApp.hideAllStates` (script.js:279-284): sets every region's display
to `none`. -/
def hideAllStates (_v : VisState) : VisState :=
  ⟨false, false, false, false⟩

/-- The app state the claims are about: the full collection, the filtered
view, and the view-region visibility. -/
structure AppState where
  movies : List Movie
  filteredMovies : List Movie
  vis : VisState
deriving DecidableEq

/-- `MovieApp.showLoading`: hide all states, then show the loading region. -/
def showLoading (s : AppState) : AppState :=
  { s with vis := { hideAllStates s.vis with loading := true } }

/-- `MovieApp.hideLoading`: hide only the loading region. -/
def hideLoading (s : AppState) : AppState :=
  { s with vis := { s.vis with loading := false } }

/-- `MovieApp.showError`: hide all states, then show the error region. -/
def showError (s : AppState) : AppState :=
  { s with vis := { hideAllStates s.vis with error := true } }

/-- `MovieApp.showNoResults`: hide all states, then show the no-results
region. -/
def showNoResults (s : AppState) : AppState :=
  { s with vis := { hideAllStates s.vis with noResults := true } }

/-- `MovieApp.renderMovies` (script.js:146-163): empty filtered view shows the
no-results region, otherwise all states are hidden and the movies container is
shown (cards rendered in filtered order). -/
def renderMovies (s : AppState) : AppState :=
  if s.filteredMovies.length = 0 then showNoResults s
  else { s with vis := { hideAllStates s.vis with container := true } }

/-- The spec's load-error taxonomy: transport (unreachable source or a
non-success HTTP status) versus parse (payload not a valid item sequence). -/
inductive LoadError where
  | transport
  | parse
deriving DecidableEq

/-- Outcome of the `fetch` in `MovieApp.loadMovies`: the network fails
outright, or a response arrives with an `ok` flag and a body; the body is
modelled by whether `response.json()` yields a valid item sequence. -/
inductive FetchResult where
  | networkError
  | response (ok : Bool) (body : Option (List Movie))

/-- How `MovieApp.loadMovies` (script.js:88-109) classifies an attempt: a
rejected fetch or a non-ok status throws before parsing (transport), a body
that does not parse throws in `response.json()` (parse), otherwise the data
is the new collection. -/
def classifyLoad : FetchResult → Except LoadError (List Movie)
  | FetchResult.networkError => Except.error LoadError.transport
  | FetchResult.response ok body =>
      if ok then
        match body with
        | some d => Except.ok d
        | none => Except.error LoadError.parse
      else Except.error LoadError.transport

/-- The atomic observable events of the app loop: a load begins
(`showLoading` before the `await`), a load attempt's continuation runs with
its outcome, or a debounced search fires. -/
inductive AppEvent where
  | loadStart
  | loadComplete (r : Except LoadError (List Movie))
  | search (q : List Char)

/-- One observable step of the app loop, translated from `loadMovies` and
`searchMovies`: a completed load either stores the data, hides loading and
re-renders, or (on either load error) shows the error region; a search
replaces the filtered view and re-renders. -/
def step (s : AppState) : AppEvent → AppState
  | AppEvent.loadStart => showLoading s
  | AppEvent.loadComplete (Except.ok d) =>
      renderMovies (hideLoading { s with movies := d, filteredMovies := d })
  | AppEvent.loadComplete (Except.error _) => showError s
  | AppEvent.search q =>
      renderMovies { s with filteredMovies := searchMoviesList q s.movies }

/-- A run of the event loop: observable instants are the states between
events (JS paints only between tasks). -/
def run (s : AppState) (es : List AppEvent) : AppState :=
  es.foldl step s

/-- The retry button's click handler calls `loadMovies` again
(script.js:64-66), i.e. it re-enters the loop with a load-start event. -/
def retryEvent : AppEvent := AppEvent.loadStart

/-- Number of view regions currently visible. -/
def activeCount (v : VisState) : Nat :=
  (if v.loading then 1 else 0) + (if v.error then 1 else 0) +
    (if v.noResults then 1 else 0) + (if v.container then 1 else 0)

/-- The modal overlay and the `document.body` scroll state, plus the overlay's
content fields.  `modalDisplay` and `bodyOverflow` hold the literal CSS values
script.js writes (`block`/`none`, `hidden`/`auto`). -/
structure ModalState where
  modalDisplay : List Char
  bodyOverflow : List Char
  modalPoster : List Char
  modalPosterAlt : List Char
  modalTitle : List Char
  modalYear : Int
  modalRating : Rat
  modalGenre : List Char
  modalDescription : List Char
deriving DecidableEq

/-- `MovieApp.openModal` (script.js:208-226): populate the content fields
from the movie, show the modal (`display = block`) and suppress background
scrolling (`overflow = hidden`). -/
def openModal (movie : Movie) (s : ModalState) : ModalState :=
  { s with
    modalPoster := movie.poster
    modalPosterAlt := movie.title ++ (" Poster").data
    modalTitle := movie.title
    modalYear := movie.year
    modalRating := movie.rating
    modalGenre := movie.genre
    modalDescription := movie.description
    modalDisplay := ("block").data
    bodyOverflow := ("hidden").data }

/-- `MovieApp.closeModal` (script.js:231-234): hide the modal and set body
overflow to the literal value `auto`. -/
def closeModal (s : ModalState) : ModalState :=
  { s with modalDisplay := ("none").data, bodyOverflow := ("auto").data }

/-- `MovieApp.isModalOpen` (script.js:239-241): the modal is open when its
display is the literal `block`. -/
def isModalOpen (s : ModalState) : Bool :=
  decide (s.modalDisplay = ("block").data)

/-- `Utils.formatRating` (script.js:309-311): `parseFloat(rating).toFixed(1)`,
i.e. round half-up to one decimal place (ratings are non-negative). -/
def formatRating (r : Rat) : Rat :=
  ((⌊r * 10 + 1 / 2⌋ : Int) : Rat) / 10

/-- An overlay operation: a card selection opens the modal on its movie, a
dismissal closes it. -/
inductive ModalOp where
  | openOp (movie : Movie)
  | closeOp

/-- Apply one overlay operation. -/
def applyModalOp (op : ModalOp) (s : ModalState) : ModalState :=
  match op with
  | ModalOp.openOp movie => openModal movie s
  | ModalOp.closeOp => closeModal s

/-- A sequence of overlay operations. -/
def runModal (s : ModalState) (ops : List ModalOp) : ModalState :=
  ops.foldl (fun t op => applyModalOp op t) s

/-- State of the debounced search channel of `MovieApp.handleSearch`
(script.js:114-124): at most one pending timer (`searchTimeout`), holding its
due time and the query it would pass to `searchMovies`; `executed` records
the `searchMovies` invocations that actually fired, with their times. -/
structure DebounceState where
  pending : Option (Nat × List Char)
  executed : List (Nat × List Char)
deriving DecidableEq

/-- Advance time to `now`: a pending timer whose due time has been reached
fires (runs its `searchMovies(query)` body) and is consumed. -/
def fireIfDue (now : Nat) (s : DebounceState) : DebounceState :=
  match s.pending with
  | some pq => if pq.1 ≤ now then { pending := none, executed := s.executed ++ [pq] } else s
  | none => s

/-- `MovieApp.handleSearch` called at time `now` with `q`: any pending timer
that was already due has fired before this input event runs; a pending timer
not yet due is cleared (`clearTimeout`) and a fresh 300 ms timer for `q`
is installed (`setTimeout`). -/
def handleSearch (now : Nat) (q : List Char) (s : DebounceState) : DebounceState :=
  let s2 := fireIfDue now s
  { s2 with pending := some (now + 300, q) }

/-- Run a timestamped sequence of search-input events (times nondecreasing)
from the idle channel. -/
def runSearchCalls (calls : List (Nat × List Char)) : DebounceState :=
  calls.foldl (fun s c => handleSearch c.1 c.2 s) { pending := none, executed := [] }

/-- All `searchMovies` executions once time runs out past every deadline: the
fired ones plus the still-pending timer, which fires at its due time. -/
def flushDebounce (s : DebounceState) : List (Nat × List Char) :=
  s.executed ++ (match s.pending with | some pq => [pq] | none => [])

/-- Concrete fixtures used in counterexamples and sample runs. -/
def movieAlpha : Movie :=
  ⟨("Alpha").data, 2001, ("Drama").data, 1, [], []⟩

/-- A second, distinct fixture movie. -/
def movieBeta : Movie :=
  ⟨("Beta").data, 2002, ("Action").data, 2, [], []⟩

/-- A fixture movie whose rating has two decimal places. -/
def movieGamma : Movie :=
  ⟨("Gamma").data, 2003, ("Sci-Fi").data, 35 / 4, [], []⟩

/-- The state built by the `MovieApp` constructor: empty collection, empty
filtered view, no region shown yet by the script. -/
def initialAppState : AppState :=
  ⟨[], [], ⟨false, false, false, false⟩⟩

/-- A modal that has never been opened. -/
def modalInitial : ModalState :=
  ⟨("none").data, ("auto").data, [], [], [], 0, 0, [], []⟩

/-- Two overlapping load attempts whose results arrive out of order: both
attempts start, the second attempt's result (movieBeta) arrives first, then
the stale first attempt's result (movieAlpha) arrives last. -/
def staleRaceEvents : List AppEvent :=
  [AppEvent.loadStart, AppEvent.loadStart,
   AppEvent.loadComplete (Except.ok [movieBeta]),
   AppEvent.loadComplete (Except.ok [movieAlpha])]

/-- `renderMovies` never changes the full collection. -/
theorem renderMovies_movies (s : AppState) : (renderMovies s).movies = s.movies := by
  unfold renderMovies showNoResults
  split <;> rfl

/-- `renderMovies` never changes the filtered view. -/
theorem renderMovies_filteredMovies (s : AppState) :
    (renderMovies s).filteredMovies = s.filteredMovies := by
  unfold renderMovies showNoResults
  split <;> rfl

/-- The view regions `renderMovies` leaves visible: exactly the no-results
region when the filtered view is empty, exactly the movies container
otherwise. -/
theorem renderMovies_vis (s : AppState) :
    (renderMovies s).vis =
      if s.filteredMovies.length = 0 then (⟨false, false, true, false⟩ : VisState)
      else ⟨false, false, false, true⟩ := by
  unfold renderMovies showNoResults hideAllStates
  split <;> rfl

/-- C1: `searchMovies` returns exactly the movies whose case-folded title
contains the trimmed, case-folded query as a substring, as an
order-preserving subset of the collection; an empty normalized query returns
the full collection unchanged, and a search event never changes the
underlying collection. -/
theorem searchMovies_filter_spec (q : List Char) (ms : List Movie) :
    List.Sublist (searchMoviesList q ms) ms ∧
    (jsTrim (jsToLower q) = [] → searchMoviesList q ms = ms) ∧
    (∀ m : Movie, m ∈ searchMoviesList q ms ↔
      m ∈ ms ∧ (jsTrim (jsToLower q) = [] ∨ jsTrim (jsToLower q) <:+: jsToLower m.title)) ∧
    (∀ s : AppState, (step s (AppEvent.search q)).movies = s.movies) := by
  refine ⟨?_, ?_, ?_, ?_⟩
  · by_cases h : jsTrim (jsToLower q) = []
    · simp [searchMoviesList, h]
    · simp only [searchMoviesList, h, if_false]
      exact List.filter_sublist ms
  · intro h
    simp [searchMoviesList, h]
  · intro m
    by_cases h : jsTrim (jsToLower q) = []
    · simp [searchMoviesList, h]
    · simp [searchMoviesList, h, List.mem_filter, titleMatches]
  · intro s
    show (renderMovies _).movies = s.movies
    rw [renderMovies_movies]

/-- C2: every observable step of the app loop leaves exactly one of the four
view regions (loading, error, no-results, movies container) visible. -/
theorem view_state_exclusive (s : AppState) (e : AppEvent) :
    activeCount (step s e).vis = 1 := by
  cases e with
  | loadStart => rfl
  | loadComplete r =>
    cases r with
    | error e => rfl
    | ok d =>
      show activeCount (renderMovies _).vis = 1
      rw [renderMovies_vis]
      split <;> rfl
  | search q =>
    show activeCount (renderMovies _).vis = 1
    rw [renderMovies_vis]
    split <;> rfl

/-- C3: a load attempt fails with the transport error exactly on an
unreachable source or a non-success status, and with the parse error exactly
on a payload that is not a valid item sequence; the two failure modes are
distinct values, every failure is handled by showing exactly the error region
(with the retry control it contains), and the retry event re-enters the
loading state — no failure escapes the handler. -/
theorem load_error_taxonomy_handled :
    classifyLoad FetchResult.networkError = Except.error LoadError.transport ∧
    (∀ body, classifyLoad (FetchResult.response false body) = Except.error LoadError.transport) ∧
    classifyLoad (FetchResult.response true none) = Except.error LoadError.parse ∧
    (∀ d, classifyLoad (FetchResult.response true (some d)) = Except.ok d) ∧
    LoadError.transport ≠ LoadError.parse ∧
    (∀ (s : AppState) (e : LoadError),
      (step s (AppEvent.loadComplete (Except.error e))).vis = ⟨false, true, false, false⟩ ∧
      (step (step s (AppEvent.loadComplete (Except.error e))) retryEvent).vis
        = ⟨true, false, false, false⟩) := by
  refine ⟨rfl, fun body => rfl, rfl, fun d => rfl, by decide, fun s e => ⟨rfl, rfl⟩⟩

/-- C4: five search inputs at 0, 50, 100, 150 and 200 ms, each arriving
before the previous 300 ms window expires, produce exactly one execution of
`searchMovies`, at 500 ms with the last call's query; no cancelled timer ever
fires, and the channel holds at most one pending timer throughout
(`pending` is a single `Option`). -/
theorem debounce_collapses_rapid_calls (q1 q2 q3 q4 q5 : List Char) :
    flushDebounce (runSearchCalls [(0, q1), (50, q2), (100, q3), (150, q4), (200, q5)])
      = [(500, q5)] ∧
    (runSearchCalls [(0, q1), (50, q2), (100, q3), (150, q4), (200, q5)]).executed = [] := by
  exact ⟨rfl, rfl⟩

/-- C6: a successful load replaces both the full collection and the filtered
view with the fetched data, so any active filter is reset to show-all. -/
theorem load_success_replaces_collection (s : AppState) (d : List Movie) :
    (step s (AppEvent.loadComplete (Except.ok d))).movies = d ∧
    (step s (AppEvent.loadComplete (Except.ok d))).filteredMovies = d ∧
    (step s (AppEvent.loadComplete (Except.ok d))).filteredMovies
      = (step s (AppEvent.loadComplete (Except.ok d))).movies := by
  refine ⟨?_, ?_, ?_⟩
  · show (renderMovies _).movies = d
    rw [renderMovies_movies]
    rfl
  · show (renderMovies _).filteredMovies = d
    rw [renderMovies_filteredMovies]
    rfl
  · show (renderMovies _).filteredMovies = (renderMovies _).movies
    rw [renderMovies_movies, renderMovies_filteredMovies]
    rfl

/-- C7: after a successful load or a search, the no-results region is shown
exactly when the resulting filtered view is empty, and the movies container
exactly when it is non-empty. -/
theorem empty_state_iff_no_items (s : AppState) (d : List Movie) (q : List Char) :
    ((step s (AppEvent.loadComplete (Except.ok d))).vis = ⟨false, false, true, false⟩ ↔ d = []) ∧
    ((step s (AppEvent.loadComplete (Except.ok d))).vis = ⟨false, false, false, true⟩ ↔ d ≠ []) ∧
    ((step s (AppEvent.search q)).vis = ⟨false, false, true, false⟩ ↔
      searchMoviesList q s.movies = []) ∧
    ((step s (AppEvent.search q)).vis = ⟨false, false, false, true⟩ ↔
      searchMoviesList q s.movies ≠ []) := by
  have hload : (step s (AppEvent.loadComplete (Except.ok d))).vis =
      if d.length = 0 then (⟨false, false, true, false⟩ : VisState)
      else ⟨false, false, false, true⟩ := renderMovies_vis _
  have hsearch : (step s (AppEvent.search q)).vis =
      if (searchMoviesList q s.movies).length = 0 then (⟨false, false, true, false⟩ : VisState)
      else ⟨false, false, false, true⟩ := renderMovies_vis _
  refine ⟨?_, ?_, ?_, ?_⟩
  · rw [hload]
    by_cases h : d = [] <;> simp [h]
  · rw [hload]
    by_cases h : d = [] <;> simp [h]
  · rw [hsearch]
    by_cases h : searchMoviesList q s.movies = [] <;> simp [h, List.length_eq_zero]
  · rw [hsearch]
    by_cases h : searchMoviesList q s.movies = [] <;> simp [h, List.length_eq_zero]

/-- C5 counterexample: two overlapping load attempts whose results arrive out
of order.  The later attempt establishes the collection `[movieBeta]`, then
the stale first attempt's result arrives and does overwrite it with
`[movieAlpha]`: `loadMovies` carries no generation guard, so the claimed
supersession discipline fails on this input. -/
theorem stale_load_result_overwrites :
    (run initialAppState (staleRaceEvents.take 3)).movies = [movieBeta] ∧
    (run initialAppState staleRaceEvents).movies ≠ [movieBeta] ∧
    (run initialAppState staleRaceEvents).movies = [movieAlpha] ∧
    (run initialAppState staleRaceEvents).filteredMovies = [movieAlpha] := by
  refine ⟨rfl, ?_, rfl, rfl⟩
  decide

/-- C5 amended: whichever load attempt's result arrives last wins
unconditionally — after two overlapping attempts whose results arrive out of
order, the collection, the filtered view and the view state are those
established by the last-arriving result, even when it belongs to the earlier,
superseded attempt. -/
theorem load_last_arrival_wins (s : AppState) (d1 d2 : List Movie) :
    (run s [AppEvent.loadStart, AppEvent.loadStart,
        AppEvent.loadComplete (Except.ok d2), AppEvent.loadComplete (Except.ok d1)]).movies
      = d1 ∧
    (run s [AppEvent.loadStart, AppEvent.loadStart,
        AppEvent.loadComplete (Except.ok d2), AppEvent.loadComplete (Except.ok d1)]).filteredMovies
      = d1 := by
  constructor
  · show (renderMovies _).movies = d1
    rw [renderMovies_movies]
    rfl
  · show (renderMovies _).filteredMovies = d1
    rw [renderMovies_filteredMovies]
    rfl

/-- C8: `closeModal` is idempotent — closing an already-closed overlay is a
no-op that leaves it closed; after any close the overlay is closed and body
overflow is the literal `auto`, regardless of which movie was displayed, and
a second close changes nothing (scroll restoration happens once). -/
theorem closeModal_idempotent (s : ModalState) (m : Movie) :
    closeModal (closeModal s) = closeModal s ∧
    isModalOpen (closeModal s) = false ∧
    isModalOpen (closeModal (openModal m s)) = false ∧
    (closeModal s).bodyOverflow = ("auto").data ∧
    (closeModal (openModal m s)).bodyOverflow = ("auto").data := by
  exact ⟨rfl, rfl, rfl, rfl, rfl⟩

/-- C9 counterexample: `openModal` copies the rating verbatim and never calls
`Utils.formatRating` (which is defined but unused).  For the movie with
rating 8.75 the overlay shows 8.75, while one-decimal formatting would show
8.8, so the claimed rating transformation does not happen. -/
theorem modal_rating_not_formatted :
    (openModal movieGamma modalInitial).modalRating = 35 / 4 ∧
    formatRating movieGamma.rating = 44 / 5 ∧
    (openModal movieGamma modalInitial).modalRating ≠ formatRating movieGamma.rating := by
  refine ⟨rfl, ?_, ?_⟩
  · show formatRating (35 / 4) = 44 / 5
    unfold formatRating
    norm_num
  · show (35 / 4 : Rat) ≠ formatRating (35 / 4)
    unfold formatRating
    norm_num

/-- C9 amended: `openModal` populates every overlay content field (poster,
title, year, rating, genre, description) verbatim from the item with no
transformation at all — in particular the rating is copied unformatted. -/
theorem openModal_populates_verbatim (m : Movie) (s : ModalState) :
    (openModal m s).modalPoster = m.poster ∧
    (openModal m s).modalTitle = m.title ∧
    (openModal m s).modalYear = m.year ∧
    (openModal m s).modalRating = m.rating ∧
    (openModal m s).modalGenre = m.genre ∧
    (openModal m s).modalDescription = m.description := by
  exact ⟨rfl, rfl, rfl, rfl, rfl, rfl⟩

/-- Scroll lock matches the overlay: body overflow is `hidden` exactly when
the modal is open. -/
def scrollLockConsistent (s : ModalState) : Prop :=
  s.bodyOverflow = ("hidden").data ↔ isModalOpen s = true

/-- Each overlay operation re-establishes the scroll-lock biconditional
whatever the previous state was. -/
theorem applyModalOp_scrollLock (op : ModalOp) (s : ModalState) :
    scrollLockConsistent (applyModalOp op s) := by
  cases op with
  | openOp m =>
    show ("hidden").data = ("hidden").data ↔ decide (("block").data = ("block").data) = true
    simp
  | closeOp =>
    show ("auto").data = ("hidden").data ↔ decide (("none").data = ("block").data) = true
    simp

/-- A run of overlay operations preserves the scroll-lock biconditional. -/
theorem runModal_preserves_scrollLock (ops : List ModalOp) (s : ModalState)
    (h : scrollLockConsistent s) : scrollLockConsistent (runModal s ops) := by
  induction ops generalizing s with
  | nil => exact h
  | cons op rest ih => exact ih (applyModalOp op s) (applyModalOp_scrollLock op s)

/-- C10: after any non-empty sequence of modal open/close operations, body
overflow is `hidden` exactly when the modal is open, and `closeModal` always
writes the literal value `auto`, not the pre-open overflow value. -/
theorem modal_scroll_lock_invariant (s : ModalState) (op : ModalOp) (ops : List ModalOp) :
    ((runModal s (op :: ops)).bodyOverflow = ("hidden").data ↔
      isModalOpen (runModal s (op :: ops)) = true) ∧
    (closeModal s).bodyOverflow = ("auto").data := by
  constructor
  · have h : runModal s (op :: ops) = runModal (applyModalOp op s) ops := rfl
    rw [h]
    exact runModal_preserves_scrollLock ops (applyModalOp op s) (applyModalOp_scrollLock op s)
  · rfl
